import Mathlib

/-!
Shallow embedding of the timing-belt configurator core
(`src/timing_belt/core.py`): the `ToothProfile` dataclass with its
`validate` method, the `S3MTimingBelt` constructor (input derivation and
validation), the single-tooth profile polygon, and the 3D belt build
pipeline (annulus base ring, batched rotate-and-union of tooth copies,
cut, final uniform scale).  Python floats are modelled as real numbers;
Python's `round` (round half to even) is modelled by `pyRound`; Python
exceptions are modelled by `Except String`.  CAD-kernel solids are
modelled by a syntax tree `Solid` recording exactly the kernel operations
the code invokes.
-/

namespace TimingBelt

/-- Python's built-in `round` on a real argument: round to the nearest
integer, ties to the even integer. -/
noncomputable def pyRound (x : ℝ) : ℤ :=
  if 2 * Int.fract x < 1 then ⌊x⌋
  else if 1 < 2 * Int.fract x then ⌊x⌋ + 1
  else if Even ⌊x⌋ then ⌊x⌋ else ⌊x⌋ + 1

/-- The `ToothProfile` dataclass of `core.py` (all fields in mm). -/
structure ToothProfile where
  pitch : ℝ
  tooth_height : ℝ
  tooth_width_at_base : ℝ
  tooth_radius : ℝ
  belt_thickness : ℝ
  extra_depth : ℝ

/-- The default field values of the `ToothProfile` dataclass. -/
noncomputable def defaultProfile : ToothProfile :=
  ⟨3, 1.4, 2, 0.6, 2, 1⟩

/-- `ToothProfile.validate` of `core.py`: the four checks, in source
order, each raising `ValueError` with the source's message. -/
noncomputable def ToothProfile.validate (p : ToothProfile) : Except String Unit :=
  if p.tooth_width_at_base ≤ 0 then .error "Tooth width must be positive"
  else if p.tooth_height ≤ 0 then .error "Tooth height must be positive"
  else if p.tooth_width_at_base / 2 ≤ p.tooth_radius then .error "Tooth radius too large for tooth width"
  else if p.belt_thickness < p.tooth_height then .error "Belt must be thicker than tooth height"
  else .ok ()

/-- The state built by `S3MTimingBelt.__init__`. -/
structure S3MTimingBelt where
  profile : ToothProfile
  length_mm : ℝ
  num_teeth : ℤ
  width : ℝ
  scale_factor : ℝ
  pitch_radius : ℝ

/-- The tail of `S3MTimingBelt.__init__` after `length_mm`/`num_teeth`
have been fixed: compute `pitch_radius = length_mm / (2π)` and run the
three validation checks in source order, first failure winning. -/
noncomputable def S3MTimingBelt.mkChecked (p : ToothProfile) (l : ℝ) (n : ℤ)
    (w sf : ℝ) : Except String S3MTimingBelt :=
  if n < 10 then .error "Number of teeth must be at least 10"
  else if w < 3 then .error "Belt width must be at least 3mm"
  else if l / (2 * Real.pi) < p.belt_thickness + p.tooth_height then
    .error "Belt radius too small for tooth dimensions"
  else .ok ⟨p, l, n, w, sf, l / (2 * Real.pi)⟩

/-- `S3MTimingBelt.__init__` of `core.py`: validate the default profile,
then branch on which of `length_mm`/`num_teeth` was supplied (the
`length_mm` branch is taken whenever `length_mm` is not `None`,
regardless of `num_teeth`), derive the other quantity, and run the
checks. -/
noncomputable def S3MTimingBelt.init (length_mm : Option ℝ) (num_teeth : Option ℤ)
    (width : ℝ) (scale_factor : ℝ) : Except String S3MTimingBelt :=
  match defaultProfile.validate with
  | .error e => .error e
  | .ok _ =>
    match length_mm, num_teeth with
    | some l, _ =>
        S3MTimingBelt.mkChecked defaultProfile l (pyRound (l / defaultProfile.pitch))
          width scale_factor
    | none, some n =>
        S3MTimingBelt.mkChecked defaultProfile ((n : ℝ) * defaultProfile.pitch) n
          width scale_factor
    | none, none => .error "Either length_mm or num_teeth must be provided"

/-- Abstract syntax of the CAD-kernel solids the code constructs:
each constructor records one kernel operation used by `core.py`. -/
inductive Solid where
  | annulus (outerRadius innerRadius height : ℝ)
  | extrudePoly (points : List (ℝ × ℝ)) (height : ℝ)
  | rotate (s : Solid) (axisStart axisEnd : ℝ × ℝ × ℝ) (angleDeg : ℝ)
  | union (a b : Solid)
  | cut (a b : Solid)
  | scale (s : Solid) (factor : ℝ)

/-- The tooth-profile polygon of `_create_single_tooth`: the five
points, in source order (last point repeats the first). -/
noncomputable def toothPoints (s : S3MTimingBelt) : List (ℝ × ℝ) :=
  [(-(s.profile.tooth_width_at_base / 2),
      (s.pitch_radius - s.profile.belt_thickness) - s.profile.extra_depth),
   (-(s.profile.tooth_width_at_base * 0.8 / 2),
      (s.pitch_radius - s.profile.belt_thickness) + s.profile.tooth_height),
   (s.profile.tooth_width_at_base * 0.8 / 2,
      (s.pitch_radius - s.profile.belt_thickness) + s.profile.tooth_height),
   (s.profile.tooth_width_at_base / 2,
      (s.pitch_radius - s.profile.belt_thickness) - s.profile.extra_depth),
   (-(s.profile.tooth_width_at_base / 2),
      (s.pitch_radius - s.profile.belt_thickness) - s.profile.extra_depth)]

/-- `_create_single_tooth` of `core.py`: the closed tooth polygon
extruded by the belt width. -/
noncomputable def create_single_tooth (s : S3MTimingBelt) : Solid :=
  Solid.extrudePoly (toothPoints s) s.width

/-- The rotated copy of the base tooth for index `i`:
`base_tooth.rotate((0,0,0), (0,0,1), i * (360 / num_teeth))`. -/
noncomputable def rotatedTooth (s : S3MTimingBelt) (i : ℕ) : Solid :=
  Solid.rotate (create_single_tooth s) (0, 0, 0) (0, 0, 1)
    ((i : ℝ) * (360 / (s.num_teeth : ℝ)))

/-- The `if batch_teeth is None ... else union` accumulation step of the
inner loop of `_create_3d_belt`. -/
def unionFoldOpt (acc : Option Solid) (s : Solid) : Option Solid :=
  match acc with
  | none => some s
  | some t => some (Solid.union t s)

/-- One inner batch of `_create_3d_belt`: fold the rotated teeth with
indices in `range(batch_start, batch_end)` into an optional union. -/
noncomputable def toothBatch (s : S3MTimingBelt) (batch_start batch_end : ℕ) : Option Solid :=
  (List.range' batch_start (batch_end - batch_start)).foldl
    (fun bt i => unionFoldOpt bt (rotatedTooth s i)) none

/-- The outer loop of `_create_3d_belt`: fold the per-batch unions over
the batch starts, with the `if teeth is None ... else teeth.union(...)`
step (a `None` batch models the Python crash of `union(None)`). -/
def outerFold (B : ℕ → Option Solid) (l : List ℕ) : Option Solid :=
  l.foldl (fun teeth bs =>
    match teeth with
    | none => B bs
    | some t => (B bs).map (fun bt => Solid.union t bt)) none

/-- The batch starts `range(0, num_teeth, batch_size)` of Python:
`0, batch_size, 2*batch_size, ...` below `n`. -/
def batchStarts (n batchSize : ℕ) : List ℕ :=
  (List.range ((n + batchSize - 1) / batchSize)).map (fun j => j * batchSize)

/-- The combined teeth solid of `_create_3d_belt`: batched rotate-and-
union over all tooth indices, batch size 10. -/
noncomputable def teethOpt (s : S3MTimingBelt) : Option Solid :=
  outerFold
    (fun batch_start =>
      toothBatch s batch_start (min (batch_start + 10) s.num_teeth.toNat))
    (batchStarts s.num_teeth.toNat 10)

/-- The annular belt body of `_create_3d_belt`: outer circle at
`pitch_radius`, inner circle at `pitch_radius - belt_thickness`,
extruded by `width`. -/
noncomputable def baseRing (s : S3MTimingBelt) : Solid :=
  Solid.annulus s.pitch_radius (s.pitch_radius - s.profile.belt_thickness) s.width

/-- `_create_3d_belt` of `core.py`: cut the combined teeth from the base
ring, then scale the finished solid iff `scale_factor != 1.0`.  `none`
models the Python exception path (no teeth built). -/
noncomputable def create_3d_belt (s : S3MTimingBelt) : Option Solid :=
  (teethOpt s).map (fun teeth =>
    let result := Solid.cut (baseRing s) teeth
    if s.scale_factor ≠ 1 then Solid.scale result s.scale_factor else result)

@[simp] lemma defaultProfile_pitch : defaultProfile.pitch = 3 := rfl

@[simp] lemma defaultProfile_tooth_height : defaultProfile.tooth_height = 1.4 := rfl

@[simp] lemma defaultProfile_tooth_width_at_base : defaultProfile.tooth_width_at_base = 2 := rfl

@[simp] lemma defaultProfile_tooth_radius : defaultProfile.tooth_radius = 0.6 := rfl

@[simp] lemma defaultProfile_belt_thickness : defaultProfile.belt_thickness = 2 := rfl

@[simp] lemma defaultProfile_extra_depth : defaultProfile.extra_depth = 1 := rfl

lemma validate_defaultProfile : defaultProfile.validate = .ok () := by
  unfold ToothProfile.validate
  norm_num

lemma pyRound_eq_of_abs_lt (k : ℤ) (x : ℝ) (h : |x - k| < 1 / 2) : pyRound x = k := by
  rw [abs_lt] at h
  obtain ⟨h1, h2⟩ := h
  unfold pyRound
  rcases le_or_lt (k : ℝ) x with hk | hk
  · have hfl : ⌊x⌋ = k := by
      rw [Int.floor_eq_iff]
      constructor
      · exact hk
      · linarith
    have hfr : Int.fract x = x - k := by
      rw [Int.fract, hfl]
    rw [if_pos]
    · exact hfl
    · rw [hfr]
      linarith
  · have hfl : ⌊x⌋ = k - 1 := by
      rw [Int.floor_eq_iff]
      push_cast
      constructor
      · linarith
      · linarith
    have hfr : Int.fract x = x - k + 1 := by
      rw [Int.fract, hfl]
      push_cast
      ring
    rw [if_neg, if_pos]
    · omega
    · rw [hfr]
      linarith
    · rw [hfr]
      intro hc
      linarith

lemma pyRound_intCast (n : ℤ) : pyRound (n : ℝ) = n := by
  apply pyRound_eq_of_abs_lt
  simp

lemma radius_check_pass (l : ℝ) (hl : 22 ≤ l) :
    ¬ (l / (2 * Real.pi) < defaultProfile.belt_thickness + defaultProfile.tooth_height) := by
  simp only [defaultProfile_belt_thickness, defaultProfile_tooth_height]
  rw [div_lt_iff₀ Real.two_pi_pos, not_lt]
  nlinarith [Real.pi_lt_d2]

lemma mkChecked_ok (p : ToothProfile) (l : ℝ) (n : ℤ) (w sf : ℝ)
    (hn : ¬ n < 10) (hw : ¬ w < 3)
    (hpr : ¬ (l / (2 * Real.pi) < p.belt_thickness + p.tooth_height)) :
    S3MTimingBelt.mkChecked p l n w sf = .ok ⟨p, l, n, w, sf, l / (2 * Real.pi)⟩ := by
  unfold S3MTimingBelt.mkChecked
  rw [if_neg hn, if_neg hw, if_neg hpr]

lemma mkChecked_ok_inv {p : ToothProfile} {l : ℝ} {n : ℤ} {w sf : ℝ}
    {s : S3MTimingBelt} (h : S3MTimingBelt.mkChecked p l n w sf = .ok s) :
    s = ⟨p, l, n, w, sf, l / (2 * Real.pi)⟩ ∧ ¬ n < 10 ∧ ¬ w < 3 ∧
      ¬ (l / (2 * Real.pi) < p.belt_thickness + p.tooth_height) := by
  unfold S3MTimingBelt.mkChecked at h
  split_ifs at h with h1 h2 h3
  exact ⟨(Except.ok.injEq _ _ ▸ h).symm, h1, h2, h3⟩

lemma init_length (l : ℝ) (w sf : ℝ) :
    S3MTimingBelt.init (some l) none w sf =
      S3MTimingBelt.mkChecked defaultProfile l (pyRound (l / 3)) w sf := by
  unfold S3MTimingBelt.init
  rw [validate_defaultProfile]
  simp

lemma init_teeth (n : ℤ) (w sf : ℝ) :
    S3MTimingBelt.init none (some n) w sf =
      S3MTimingBelt.mkChecked defaultProfile ((n : ℝ) * 3) n w sf := by
  unfold S3MTimingBelt.init
  rw [validate_defaultProfile]
  simp

lemma init_both (l : ℝ) (n : ℤ) (w sf : ℝ) :
    S3MTimingBelt.init (some l) (some n) w sf = S3MTimingBelt.init (some l) none w sf := by
  unfold S3MTimingBelt.init
  rw [validate_defaultProfile]

/-- The belt built from `length_mm = 31` with default width and scale. -/
noncomputable def spec31 : S3MTimingBelt :=
  ⟨defaultProfile, 31, 10, 9, 1.005, 31 / (2 * Real.pi)⟩

/-- The belt built from `num_teeth = 70` with default width and scale. -/
noncomputable def spec70 : S3MTimingBelt :=
  ⟨defaultProfile, 210, 70, 9, 1.005, 210 / (2 * Real.pi)⟩

/-- The belt built from `num_teeth = 10` with default width and scale. -/
noncomputable def spec10 : S3MTimingBelt :=
  ⟨defaultProfile, 30, 10, 9, 1.005, 30 / (2 * Real.pi)⟩

/-- The belt built from `num_teeth = 70` with width exactly 3. -/
noncomputable def spec70w3 : S3MTimingBelt :=
  ⟨defaultProfile, 210, 70, 3, 1.005, 210 / (2 * Real.pi)⟩

lemma mk31 : S3MTimingBelt.init (some 31) none 9 1.005 = .ok spec31 := by
  rw [init_length]
  have hr : pyRound ((31 : ℝ) / 3) = 10 := by
    apply pyRound_eq_of_abs_lt
    rw [abs_lt]
    norm_num
  rw [hr]
  exact mkChecked_ok _ _ _ _ _ (by norm_num) (by norm_num)
    (radius_check_pass 31 (by norm_num))

lemma mk70 : S3MTimingBelt.init none (some 70) 9 1.005 = .ok spec70 := by
  rw [init_teeth]
  have h : ((70 : ℤ) : ℝ) * 3 = (210 : ℝ) := by norm_num
  rw [h]
  exact mkChecked_ok _ _ _ _ _ (by norm_num) (by norm_num)
    (radius_check_pass 210 (by norm_num))

lemma mk210 : S3MTimingBelt.init (some 210) none 9 1.005 = .ok spec70 := by
  rw [init_length]
  have hr : pyRound ((210 : ℝ) / 3) = 70 := by
    apply pyRound_eq_of_abs_lt
    rw [abs_lt]
    norm_num
  rw [hr]
  exact mkChecked_ok _ _ _ _ _ (by norm_num) (by norm_num)
    (radius_check_pass 210 (by norm_num))

lemma mk10 : S3MTimingBelt.init none (some 10) 9 1.005 = .ok spec10 := by
  rw [init_teeth]
  have h : ((10 : ℤ) : ℝ) * 3 = (30 : ℝ) := by norm_num
  rw [h]
  exact mkChecked_ok _ _ _ _ _ (by norm_num) (by norm_num)
    (radius_check_pass 30 (by norm_num))

lemma mk70w3 : S3MTimingBelt.init none (some 70) 3 1.005 = .ok spec70w3 := by
  rw [init_teeth]
  have h : ((70 : ℤ) : ℝ) * 3 = (210 : ℝ) := by norm_num
  rw [h]
  exact mkChecked_ok _ _ _ _ _ (by norm_num) (by norm_num)
    (radius_check_pass 210 (by norm_num))

/-- The leaves of the union tree of a solid: the list of non-union
solids combined by its top-level `union` operations, left to right. -/
def unionLeaves : Solid → List Solid
  | .annulus a b c => [.annulus a b c]
  | .extrudePoly p h => [.extrudePoly p h]
  | .rotate s p1 p2 a => [.rotate s p1 p2 a]
  | .union a b => unionLeaves a ++ unionLeaves b
  | .cut a b => [.cut a b]
  | .scale s f => [.scale s f]

/-- Leaves of an optional solid (`none` has no leaves). -/
def leavesOpt : Option Solid → List Solid
  | none => []
  | some s => unionLeaves s

lemma unionLeaves_ne_nil (s : Solid) : unionLeaves s ≠ [] := by
  induction s with
  | union a b iha ihb => simp [unionLeaves, iha]
  | annulus a b c => simp [unionLeaves]
  | extrudePoly p h => simp [unionLeaves]
  | rotate s p1 p2 a ih => simp [unionLeaves]
  | cut a b iha ihb => simp [unionLeaves]
  | scale s f ih => simp [unionLeaves]

lemma leavesOpt_eq_nil_iff (o : Option Solid) : leavesOpt o = [] ↔ o = none := by
  cases o with
  | none => simp [leavesOpt]
  | some s => simp [leavesOpt, unionLeaves_ne_nil s]

lemma leavesOpt_unionFoldOpt (acc : Option Solid) (s : Solid) :
    leavesOpt (unionFoldOpt acc s) = leavesOpt acc ++ unionLeaves s := by
  cases acc <;> rfl

lemma leavesOpt_foldl_unionFoldOpt (l : List Solid) (acc : Option Solid) :
    leavesOpt (l.foldl unionFoldOpt acc) = leavesOpt acc ++ (l.map unionLeaves).flatten := by
  induction l generalizing acc with
  | nil => simp
  | cons x xs ih =>
    rw [List.foldl_cons, ih, leavesOpt_unionFoldOpt]
    simp [List.append_assoc]

lemma join_map_singleton {α : Type} {β : Type} (f : α → β) (l : List α) :
    (l.map (fun a => [f a])).flatten = l.map f := by
  induction l with
  | nil => rfl
  | cons x xs ih => simp [ih]

lemma leaves_toothBatch (s : S3MTimingBelt) (a b : ℕ) :
    leavesOpt (toothBatch s a b) = (List.range' a (b - a)).map (rotatedTooth s) := by
  unfold toothBatch
  rw [show (fun bt i => unionFoldOpt bt (rotatedTooth s i)) =
        (fun bt i => unionFoldOpt bt ((rotatedTooth s) i)) from rfl,
    ← List.foldl_map (rotatedTooth s) unionFoldOpt,
    leavesOpt_foldl_unionFoldOpt]
  simp only [leavesOpt, List.nil_append, List.map_map]
  rw [show unionLeaves ∘ rotatedTooth s = fun i => [rotatedTooth s i] from rfl]
  exact join_map_singleton (rotatedTooth s) _

lemma toothBatch_ne_none (s : S3MTimingBelt) (a b : ℕ) (h : a < b) :
    toothBatch s a b ≠ none := by
  intro hnone
  have hl := leaves_toothBatch s a b
  rw [hnone] at hl
  simp only [leavesOpt] at hl
  have hr : List.range' a (b - a) = [] := List.eq_nil_of_map_eq_nil hl.symm
  rw [List.range'_eq_nil] at hr
  omega

lemma leavesOpt_outerFold (B : ℕ → Option Solid) (l : List ℕ)
    (hB : ∀ x ∈ l, B x ≠ none) :
    leavesOpt (outerFold B l) = (l.map (fun bs => leavesOpt (B bs))).flatten := by
  unfold outerFold
  suffices h : ∀ acc : Option Solid,
      leavesOpt (l.foldl (fun teeth bs =>
        match teeth with
        | none => B bs
        | some t => (B bs).map (fun bt => Solid.union t bt)) acc)
        = leavesOpt acc ++ (l.map (fun bs => leavesOpt (B bs))).flatten by
    rw [h none]
    rfl
  induction l with
  | nil => intro acc; simp
  | cons x xs ih =>
    intro acc
    have hx : B x ≠ none := hB x (List.mem_cons_self x xs)
    obtain ⟨b, hb⟩ : ∃ b, B x = some b := by
      cases hbx : B x with
      | none => exact absurd hbx hx
      | some b => exact ⟨b, rfl⟩
    have ih' := ih (fun y hy => hB y (List.mem_cons_of_mem x hy))
    cases acc with
    | none =>
      rw [List.foldl_cons, ih' (B x)]
      simp [hb, leavesOpt]
    | some t =>
      rw [List.foldl_cons, ih' _]
      simp [hb, leavesOpt, unionLeaves, List.append_assoc]

lemma batch_flatten_aux (n k : ℕ) (hk : k ≤ (n + 9) / 10) :
    (((List.range k).map (fun j => j * 10)).map
        (fun bs => List.range' bs (min (bs + 10) n - bs))).flatten
      = List.range' 0 (min (10 * k) n) := by
  induction k with
  | zero => simp
  | succ k ih =>
    have hk' : k ≤ (n + 9) / 10 := Nat.le_of_succ_le hk
    have h10k : 10 * k < n := by omega
    rw [List.range_succ, List.map_append, List.map_append, List.flatten_append, ih hk']
    simp only [List.map_cons, List.map_nil, List.flatten_cons, List.flatten_nil,
      List.append_nil]
    have hmin : min (10 * k) n = 10 * k := by omega
    rw [hmin]
    have h1 : k * 10 = 0 + 10 * k := by omega
    rw [h1, List.range'_append_1]
    congr 1
    omega

lemma batchStarts_flatten (n : ℕ) :
    ((batchStarts n 10).map (fun bs => List.range' bs (min (bs + 10) n - bs))).flatten
      = List.range n := by
  unfold batchStarts
  have he : (n + 10 - 1) / 10 = (n + 9) / 10 := by omega
  rw [he, batch_flatten_aux n ((n + 9) / 10) (le_refl _)]
  have hm : min (10 * ((n + 9) / 10)) n = n := by omega
  rw [hm, List.range_eq_range']

lemma mem_batchStarts_lt {n bs : ℕ} (h : bs ∈ batchStarts n 10) : bs < n := by
  unfold batchStarts at h
  simp only [List.mem_map, List.mem_range] at h
  obtain ⟨j, hj, rfl⟩ := h
  omega

lemma leaves_teethOpt (s : S3MTimingBelt) :
    leavesOpt (teethOpt s) = (List.range s.num_teeth.toNat).map (rotatedTooth s) := by
  unfold teethOpt
  rw [leavesOpt_outerFold]
  · have hmap : (batchStarts s.num_teeth.toNat 10).map
        (fun bs => leavesOpt (toothBatch s bs (min (bs + 10) s.num_teeth.toNat)))
        = (batchStarts s.num_teeth.toNat 10).map
            (fun bs => (List.range' bs (min (bs + 10) s.num_teeth.toNat - bs)).map
              (rotatedTooth s)) :=
      List.map_congr_left (fun bs _ => leaves_toothBatch s bs _)
    rw [hmap, show (fun bs => (List.range' bs (min (bs + 10) s.num_teeth.toNat - bs)).map
          (rotatedTooth s))
        = (List.map (rotatedTooth s)) ∘
            (fun bs => List.range' bs (min (bs + 10) s.num_teeth.toNat - bs)) from rfl,
      ← List.map_map, ← List.map_flatten, batchStarts_flatten]
  · intro bs hbs
    apply toothBatch_ne_none
    have := mem_batchStarts_lt hbs
    omega

lemma teethOpt_map_unionLeaves (s : S3MTimingBelt) (h : 1 ≤ s.num_teeth.toNat) :
    (teethOpt s).map unionLeaves =
      some ((List.range s.num_teeth.toNat).map (rotatedTooth s)) := by
  have hl := leaves_teethOpt s
  cases ht : teethOpt s with
  | none =>
    rw [ht] at hl
    simp only [leavesOpt] at hl
    have hn : List.range s.num_teeth.toNat = [] := List.eq_nil_of_map_eq_nil hl.symm
    rw [List.range_eq_nil] at hn
    omega
  | some t =>
    rw [ht] at hl
    simp only [leavesOpt] at hl
    simp [hl]

/-- The single flat union of all rotated tooth copies, as the spec's
words describe it (the reference point for the batched-union
refinement): fold a plain union over the rotated copies for indices
`0, ..., numTeeth - 1`, in order. -/
noncomputable def flatUnionSpec (s : S3MTimingBelt) : Option Solid :=
  ((List.range s.num_teeth.toNat).map (rotatedTooth s)).foldl unionFoldOpt none

lemma leaves_flatUnionSpec (s : S3MTimingBelt) :
    leavesOpt (flatUnionSpec s) = (List.range s.num_teeth.toNat).map (rotatedTooth s) := by
  unfold flatUnionSpec
  rw [leavesOpt_foldl_unionFoldOpt]
  simp only [leavesOpt, List.nil_append, List.map_map]
  rw [show unionLeaves ∘ rotatedTooth s = fun i => [rotatedTooth s i] from rfl]
  exact join_map_singleton (rotatedTooth s) _

lemma flatUnionSpec_map_unionLeaves (s : S3MTimingBelt) (h : 1 ≤ s.num_teeth.toNat) :
    (flatUnionSpec s).map unionLeaves =
      some ((List.range s.num_teeth.toNat).map (rotatedTooth s)) := by
  have hl := leaves_flatUnionSpec s
  cases ht : flatUnionSpec s with
  | none =>
    rw [ht] at hl
    simp only [leavesOpt] at hl
    have hn : List.range s.num_teeth.toNat = [] := List.eq_nil_of_map_eq_nil hl.symm
    rw [List.range_eq_nil] at hn
    omega
  | some t =>
    rw [ht] at hl
    simp only [leavesOpt] at hl
    simp [hl]

/-- Claim C1 as stated is false: constructing from `lengthMm = 31`
succeeds and stores `length_mm = 31` unchanged, while
`num_teeth * pitch = 10 * 3 = 30`; the stored length is never
recomputed as `numTeeth * pitch` in the length-driven path. -/
theorem C1_length_not_recomputed_counterexample :
    S3MTimingBelt.init (some 31) none 9 1.005 = .ok spec31 ∧
    spec31.length_mm = 31 ∧ (spec31.num_teeth : ℝ) * defaultProfile.pitch = 30 ∧
    spec31.length_mm ≠ (spec31.num_teeth : ℝ) * defaultProfile.pitch := by
  refine ⟨mk31, rfl, by norm_num [spec31], by norm_num [spec31]⟩

/-- Claim C1, amended: when construction is driven by `numTeeth`, the
stored `lengthMm` equals `numTeeth * pitch` exactly; but when it is
driven by `lengthMm`, the stored `lengthMm` is the caller's value
unchanged (no snapping to a pitch multiple) and `numTeeth` is
`round(lengthMm / pitch)`. -/
theorem C1_length_stored_as_given :
    (∀ (l w sf : ℝ) (s : S3MTimingBelt),
        S3MTimingBelt.init (some l) none w sf = .ok s →
          s.length_mm = l ∧ s.num_teeth = pyRound (l / defaultProfile.pitch)) ∧
    (∀ (n : ℤ) (w sf : ℝ) (s : S3MTimingBelt),
        S3MTimingBelt.init none (some n) w sf = .ok s →
          s.length_mm = (n : ℝ) * defaultProfile.pitch) := by
  constructor
  · intro l w sf s h
    rw [init_length] at h
    obtain ⟨rfl, -, -, -⟩ := mkChecked_ok_inv h
    exact ⟨rfl, by simp⟩
  · intro n w sf s h
    rw [init_teeth] at h
    obtain ⟨rfl, -, -, -⟩ := mkChecked_ok_inv h
    simp

/-- Witness for the amended C1 at the concrete input `lengthMm = 31`. -/
theorem C1_length_stored_as_given_witness :
    spec31.length_mm = 31 ∧ spec31.num_teeth = pyRound (31 / defaultProfile.pitch) :=
  C1_length_stored_as_given.1 31 9 1.005 spec31 mk31

/-- Claim C2 as stated is false: supplying both `lengthMm = 210` and
`numTeeth = 70` does not raise `InvalidInput`; construction succeeds
(the `lengthMm` branch is taken). -/
theorem C2_both_inputs_accepted_counterexample :
    S3MTimingBelt.init (some 210) (some 70) 9 1.005 = .ok spec70 := by
  rw [init_both]
  exact mk210

/-- Claim C2, amended: supplying neither input fails with the
`InvalidInput` error, but supplying both succeeds whenever the
corresponding length-only construction does — the `lengthMm` branch is
taken and the supplied `numTeeth` is ignored. -/
theorem C2_neither_rejected_both_uses_length :
    (∀ (w sf : ℝ), S3MTimingBelt.init none none w sf =
        .error "Either length_mm or num_teeth must be provided") ∧
    (∀ (l : ℝ) (n : ℤ) (w sf : ℝ),
        S3MTimingBelt.init (some l) (some n) w sf =
          S3MTimingBelt.init (some l) none w sf) := by
  constructor
  · intro w sf
    unfold S3MTimingBelt.init
    rw [validate_defaultProfile]
  · intro l n w sf
    exact init_both l n w sf

/-- Claim C3 as stated is false: for the valid specification built from
`numTeeth = 70`, the tooth polygon has no vertex at the claimed deepest
radius `innerSurfaceRadius - toothHeight`; its vertices sit at radii
`innerSurfaceRadius - extraDepth` (base edge) and
`innerSurfaceRadius + toothHeight` (tip edge). -/
theorem C3_tooth_profile_counterexample :
    (toothPoints spec70).map Prod.snd =
      [210 / (2 * Real.pi) - 2 - 1, 210 / (2 * Real.pi) - 2 + 1.4,
       210 / (2 * Real.pi) - 2 + 1.4, 210 / (2 * Real.pi) - 2 - 1,
       210 / (2 * Real.pi) - 2 - 1] ∧
    210 / (2 * Real.pi) - 2 + 1.4 ≠ 210 / (2 * Real.pi) - 2 - 1.4 ∧
    210 / (2 * Real.pi) - 2 - 1 ≠ 210 / (2 * Real.pi) - 2 - 1.4 ∧
    210 / (2 * Real.pi) - 2 - 1 ≠ 210 / (2 * Real.pi) - 2 := by
  refine ⟨?_, by intro h; linarith, by intro h; linarith, by intro h; linarith⟩
  simp [toothPoints, spec70]

/-- Claim C3, amended: for every specification, the tooth-void profile
is the closed 5-point polygon (4 distinct vertices, last point repeating
the first) whose base edge lies at radius
`innerSurfaceRadius - extraDepth` spanning `toothWidthAtBase/2` on each
side, and whose tip edge lies at radius
`innerSurfaceRadius + toothHeight` spanning the narrower tip width
`0.8 * toothWidthAtBase`; the tooth solid is this polygon extruded by
the belt width. -/
theorem C3_tooth_profile_polygon (s : S3MTimingBelt) :
    toothPoints s =
      [(-(s.profile.tooth_width_at_base / 2),
          (s.pitch_radius - s.profile.belt_thickness) - s.profile.extra_depth),
       (-(s.profile.tooth_width_at_base * 0.8 / 2),
          (s.pitch_radius - s.profile.belt_thickness) + s.profile.tooth_height),
       (s.profile.tooth_width_at_base * 0.8 / 2,
          (s.pitch_radius - s.profile.belt_thickness) + s.profile.tooth_height),
       (s.profile.tooth_width_at_base / 2,
          (s.pitch_radius - s.profile.belt_thickness) - s.profile.extra_depth),
       (-(s.profile.tooth_width_at_base / 2),
          (s.pitch_radius - s.profile.belt_thickness) - s.profile.extra_depth)] ∧
    (toothPoints s).length = 5 ∧
    (toothPoints s).head? = (toothPoints s).getLast? ∧
    create_single_tooth s = Solid.extrudePoly (toothPoints s) s.width := by
  exact ⟨rfl, rfl, rfl, rfl⟩

/-- Claim C4, confirmed: the three constructor checks run in the fixed
order tooth-count, width, pitch-radius with the first failure
determining the error, the three error messages are distinct, and the
boundary cases behave as claimed: `numTeeth = 9` fails, `numTeeth = 10`
succeeds, `width = 2.99` fails, `width = 3.0` succeeds. -/
theorem C4_validation_order_and_boundaries :
    (∀ (p : ToothProfile) (l : ℝ) (n : ℤ) (w sf : ℝ), n < 10 →
        S3MTimingBelt.mkChecked p l n w sf =
          .error "Number of teeth must be at least 10") ∧
    (∀ (p : ToothProfile) (l : ℝ) (n : ℤ) (w sf : ℝ), ¬ n < 10 → w < 3 →
        S3MTimingBelt.mkChecked p l n w sf =
          .error "Belt width must be at least 3mm") ∧
    (∀ (p : ToothProfile) (l : ℝ) (n : ℤ) (w sf : ℝ), ¬ n < 10 → ¬ w < 3 →
        l / (2 * Real.pi) < p.belt_thickness + p.tooth_height →
        S3MTimingBelt.mkChecked p l n w sf =
          .error "Belt radius too small for tooth dimensions") ∧
    ("Number of teeth must be at least 10" ≠ "Belt width must be at least 3mm" ∧
     "Number of teeth must be at least 10" ≠ "Belt radius too small for tooth dimensions" ∧
     "Belt width must be at least 3mm" ≠ "Belt radius too small for tooth dimensions") ∧
    S3MTimingBelt.init none (some 9) 9 1.005 =
      .error "Number of teeth must be at least 10" ∧
    S3MTimingBelt.init none (some 10) 9 1.005 = .ok spec10 ∧
    S3MTimingBelt.init none (some 70) 2.99 1.005 =
      .error "Belt width must be at least 3mm" ∧
    S3MTimingBelt.init none (some 70) 3 1.005 = .ok spec70w3 := by
  refine ⟨?_, ?_, ?_, ⟨by decide, by decide, by decide⟩, ?_, mk10, ?_, mk70w3⟩
  · intro p l n w sf hn
    unfold S3MTimingBelt.mkChecked
    rw [if_pos hn]
  · intro p l n w sf hn hw
    unfold S3MTimingBelt.mkChecked
    rw [if_neg hn, if_pos hw]
  · intro p l n w sf hn hw hpr
    unfold S3MTimingBelt.mkChecked
    rw [if_neg hn, if_neg hw, if_pos hpr]
  · rw [init_teeth]
    unfold S3MTimingBelt.mkChecked
    rw [if_pos (by norm_num : (9 : ℤ) < 10)]
  · rw [init_teeth]
    unfold S3MTimingBelt.mkChecked
    rw [if_neg (by norm_num : ¬ (70 : ℤ) < 10), if_pos (by norm_num : (2.99 : ℝ) < 3)]

/-- Witness for C4 at a concrete failing tooth count. -/
theorem C4_validation_order_and_boundaries_witness :
    S3MTimingBelt.mkChecked defaultProfile 0 9 9 1.005 =
      .error "Number of teeth must be at least 10" :=
  C4_validation_order_and_boundaries.1 defaultProfile 0 9 9 1.005 (by norm_num)

/-- Claim C5, confirmed: for every specification with a valid tooth
count, the batched union built by `_create_3d_belt` combines exactly the
rotated copies of the base tooth at angles `i * (360 / numTeeth)` for
`i = 0, ..., numTeeth - 1`, each index exactly once and in order; the
same list of leaves as the flat union of all copies; and
`numTeeth * angleStep = 360` exactly. -/
theorem C5_batched_union_refines_flat_union (s : S3MTimingBelt)
    (h : 10 ≤ s.num_teeth) :
    (teethOpt s).map unionLeaves =
      some ((List.range s.num_teeth.toNat).map (rotatedTooth s)) ∧
    (flatUnionSpec s).map unionLeaves = (teethOpt s).map unionLeaves ∧
    rotatedTooth s = (fun i : ℕ => Solid.rotate (create_single_tooth s) (0, 0, 0) (0, 0, 1)
      ((i : ℝ) * (360 / (s.num_teeth : ℝ)))) ∧
    (s.num_teeth : ℝ) * (360 / (s.num_teeth : ℝ)) = 360 := by
  have h1 : 1 ≤ s.num_teeth.toNat := by omega
  refine ⟨teethOpt_map_unionLeaves s h1,
    (flatUnionSpec_map_unionLeaves s h1).trans (teethOpt_map_unionLeaves s h1).symm,
    rfl, ?_⟩
  have hne : (s.num_teeth : ℝ) ≠ 0 := by
    have h10 : (10 : ℝ) ≤ (s.num_teeth : ℝ) := by exact_mod_cast h
    linarith
  field_simp

/-- Witness for C5 at the concrete specification with 70 teeth. -/
theorem C5_batched_union_refines_flat_union_witness :
    (teethOpt spec70).map unionLeaves =
      some ((List.range spec70.num_teeth.toNat).map (rotatedTooth spec70)) ∧
    (flatUnionSpec spec70).map unionLeaves = (teethOpt spec70).map unionLeaves ∧
    rotatedTooth spec70 = (fun i : ℕ => Solid.rotate (create_single_tooth spec70) (0, 0, 0)
      (0, 0, 1) ((i : ℝ) * (360 / (spec70.num_teeth : ℝ)))) ∧
    (spec70.num_teeth : ℝ) * (360 / (spec70.num_teeth : ℝ)) = 360 :=
  C5_batched_union_refines_flat_union spec70 (by norm_num [spec70])

/-- Claim C6, confirmed: the uniform scale is applied only after the cut
of the combined teeth from the base ring and only when the scale factor
differs from 1: with `scale_factor = 1` the result is exactly the
unscaled cut, otherwise the entire cut solid is scaled as the final
step. -/
theorem C6_scale_applied_after_cut (s : S3MTimingBelt) :
    (s.scale_factor = 1 →
      create_3d_belt s = (teethOpt s).map (fun t => Solid.cut (baseRing s) t)) ∧
    (s.scale_factor ≠ 1 →
      create_3d_belt s =
        (teethOpt s).map (fun t =>
          Solid.scale (Solid.cut (baseRing s) t) s.scale_factor)) := by
  constructor
  · intro h1
    unfold create_3d_belt
    cases ht : teethOpt s with
    | none => rfl
    | some t =>
      simp only [Option.map_some']
      rw [if_neg (not_not_intro h1)]
  · intro h1
    unfold create_3d_belt
    cases ht : teethOpt s with
    | none => rfl
    | some t =>
      simp only [Option.map_some']
      rw [if_pos h1]

/-- Witness for C6 at the concrete specification with 70 teeth and
scale factor 1.005. -/
theorem C6_scale_applied_after_cut_witness :
    create_3d_belt spec70 =
      (teethOpt spec70).map (fun t =>
        Solid.scale (Solid.cut (baseRing spec70) t) spec70.scale_factor) :=
  (C6_scale_applied_after_cut spec70).2 (by norm_num [spec70])

/-- Claim C7 as stated is false: a profile with non-positive `pitch` and
non-positive `extra_depth` (other fields default) passes `validate`,
although the claim requires every length field to be strictly
positive for validation to succeed. -/
theorem C7_validate_counterexample :
    ToothProfile.validate ⟨-3, 1.4, 2, 0.6, 2, -1⟩ = .ok () ∧
    (ToothProfile.mk (-3) 1.4 2 0.6 2 (-1)).pitch ≤ 0 ∧
    (ToothProfile.mk (-3) 1.4 2 0.6 2 (-1)).extra_depth ≤ 0 := by
  refine ⟨?_, by norm_num, by norm_num⟩
  unfold ToothProfile.validate
  norm_num

/-- Claim C7, amended: `validate` fails exactly when
`toothWidthAtBase ≤ 0`, or `toothHeight ≤ 0`, or
`toothRadius ≥ toothWidthAtBase / 2`, or `beltThickness < toothHeight`;
the positivity of `pitch`, `toothRadius`, `beltThickness` and
`extraDepth` is never checked. -/
theorem C7_validate_iff (p : ToothProfile) :
    p.validate = .ok () ↔
      0 < p.tooth_width_at_base ∧ 0 < p.tooth_height ∧
      p.tooth_radius < p.tooth_width_at_base / 2 ∧
      p.tooth_height ≤ p.belt_thickness := by
  unfold ToothProfile.validate
  split_ifs with h1 h2 h3 h4
  · exact iff_of_false (by simp) (fun h => absurd h.1 (not_lt.mpr h1))
  · exact iff_of_false (by simp) (fun h => absurd h.2.1 (not_lt.mpr h2))
  · exact iff_of_false (by simp) (fun h => absurd h.2.2.1 (not_lt.mpr h3))
  · exact iff_of_false (by simp) (fun h => absurd h.2.2.2 (not_le.mpr h4))
  · exact iff_of_true rfl ⟨not_le.mp h1, not_le.mp h2, not_le.mp h3, not_lt.mp h4⟩

/-- Claim C8, confirmed: for every integer `k ≥ 10` and every real
`ε` with `|ε| < pitch / 2 = 1.5`, constructing from
`lengthMm = k * pitch + ε` (width 9, any scale factor) succeeds and
derives `numTeeth = k`. -/
theorem C8_monotonic_rounding (k : ℤ) (hk : 10 ≤ k) (ε : ℝ) (hε : |ε| < 3 / 2)
    (sf : ℝ) :
    S3MTimingBelt.init (some ((k : ℝ) * 3 + ε)) none 9 sf =
      .ok ⟨defaultProfile, (k : ℝ) * 3 + ε, k, 9, sf,
        ((k : ℝ) * 3 + ε) / (2 * Real.pi)⟩ := by
  rw [init_length]
  have hr : pyRound (((k : ℝ) * 3 + ε) / 3) = k := by
    apply pyRound_eq_of_abs_lt
    have he : ((k : ℝ) * 3 + ε) / 3 - k = ε / 3 := by ring
    rw [he]
    have h3 : |ε / 3| = |ε| / 3 := by
      rw [abs_div]
      norm_num
    rw [h3]
    linarith
  rw [hr]
  apply mkChecked_ok
  · omega
  · norm_num
  · apply radius_check_pass
    have hk' : (10 : ℝ) ≤ (k : ℝ) := by exact_mod_cast hk
    have hlo : -(3 / 2 : ℝ) < ε := (abs_lt.mp hε).1
    linarith

/-- Witness for C8 at `k = 11`, `ε = -1`. -/
theorem C8_monotonic_rounding_witness :
    S3MTimingBelt.init (some (((11 : ℤ) : ℝ) * 3 + -1)) none 9 1.005 =
      .ok ⟨defaultProfile, ((11 : ℤ) : ℝ) * 3 + -1, 11, 9, 1.005,
        (((11 : ℤ) : ℝ) * 3 + -1) / (2 * Real.pi)⟩ :=
  C8_monotonic_rounding 11 (by norm_num) (-1) (by rw [abs_lt]; norm_num) 1.005

/-- Claim C9, confirmed: constructing from a valid `numTeeth`, reading
off the derived `lengthMm`, and constructing again from that `lengthMm`
reproduces the identical specification (same `numTeeth`, same
`lengthMm`) — the derivation rule is a fixed point of this round
trip. -/
theorem C9_round_trip_fixed_point (n : ℤ) (s1 : S3MTimingBelt)
    (h1 : S3MTimingBelt.init none (some n) 9 1.005 = .ok s1) :
    S3MTimingBelt.init (some s1.length_mm) none 9 1.005 = .ok s1 := by
  rw [init_teeth] at h1
  obtain ⟨rfl, hn, hw, hpr⟩ := mkChecked_ok_inv h1
  rw [init_length]
  have hr : pyRound ((n : ℝ) * 3 / 3) = n := by
    have h : (n : ℝ) * 3 / 3 = (n : ℝ) := by ring
    rw [h, pyRound_intCast]
  show S3MTimingBelt.mkChecked defaultProfile ((n : ℝ) * 3)
      (pyRound ((n : ℝ) * 3 / 3)) 9 1.005 = _
  rw [hr]
  exact mkChecked_ok _ _ _ _ _ hn hw hpr

/-- Witness for C9 at `numTeeth = 70`. -/
theorem C9_round_trip_fixed_point_witness :
    S3MTimingBelt.init (some spec70.length_mm) none 9 1.005 = .ok spec70 :=
  C9_round_trip_fixed_point 70 spec70 mk70

/-- Success predicate for constructor results. -/
def isOkE {ε α : Type} : Except ε α → Prop
  | .ok _ => True
  | .error _ => False

lemma mkChecked_isOk_indep (p : ToothProfile) (l : ℝ) (n : ℤ) (w sf sf' : ℝ) :
    isOkE (S3MTimingBelt.mkChecked p l n w sf) ↔
      isOkE (S3MTimingBelt.mkChecked p l n w sf') := by
  unfold S3MTimingBelt.mkChecked
  split_ifs <;> simp [isOkE]

lemma init_length_any (l : ℝ) (nt : Option ℤ) (w sf : ℝ) :
    S3MTimingBelt.init (some l) nt w sf =
      S3MTimingBelt.mkChecked defaultProfile l (pyRound (l / 3)) w sf := by
  unfold S3MTimingBelt.init
  rw [validate_defaultProfile]
  cases nt <;> simp

/-- Claim C10, confirmed: construction never inspects the scale factor
(success is independent of it, including 0 and negative values, as the
two concrete constructions show), the supplied scale factor is stored
unchanged, and it is applied as the scale of the finished solid when it
differs from 1. -/
theorem C10_scale_factor_unvalidated :
    (∀ (l : Option ℝ) (n : Option ℤ) (w sf sf' : ℝ),
        isOkE (S3MTimingBelt.init l n w sf) ↔ isOkE (S3MTimingBelt.init l n w sf')) ∧
    (∀ (l : Option ℝ) (n : Option ℤ) (w sf : ℝ) (s : S3MTimingBelt),
        S3MTimingBelt.init l n w sf = .ok s → s.scale_factor = sf) ∧
    (∀ s : S3MTimingBelt, s.scale_factor ≠ 1 →
        create_3d_belt s = (teethOpt s).map (fun t =>
          Solid.scale (Solid.cut (baseRing s) t) s.scale_factor)) ∧
    S3MTimingBelt.init none (some 70) 9 0 =
      .ok ⟨defaultProfile, ((70 : ℤ) : ℝ) * 3, 70, 9, 0,
        (((70 : ℤ) : ℝ) * 3) / (2 * Real.pi)⟩ ∧
    S3MTimingBelt.init none (some 70) 9 (-1) =
      .ok ⟨defaultProfile, ((70 : ℤ) : ℝ) * 3, 70, 9, -1,
        (((70 : ℤ) : ℝ) * 3) / (2 * Real.pi)⟩ := by
  refine ⟨?_, ?_, ?_, ?_, ?_⟩
  · intro l n w sf sf'
    cases l with
    | some l => rw [init_length_any, init_length_any]; exact mkChecked_isOk_indep _ _ _ _ _ _
    | none =>
      cases n with
      | some n => rw [init_teeth, init_teeth]; exact mkChecked_isOk_indep _ _ _ _ _ _
      | none =>
        unfold S3MTimingBelt.init
        rw [validate_defaultProfile]
  · intro l n w sf s h
    cases l with
    | some l =>
      rw [init_length_any] at h
      obtain ⟨rfl, -, -, -⟩ := mkChecked_ok_inv h
      rfl
    | none =>
      cases n with
      | some n =>
        rw [init_teeth] at h
        obtain ⟨rfl, -, -, -⟩ := mkChecked_ok_inv h
        rfl
      | none =>
        unfold S3MTimingBelt.init at h
        rw [validate_defaultProfile] at h
        simp at h
  · intro s h1
    unfold create_3d_belt
    cases ht : teethOpt s with
    | none => rfl
    | some t =>
      simp only [Option.map_some']
      rw [if_pos h1]
  · rw [init_teeth]
    exact mkChecked_ok _ _ _ _ _ (by norm_num) (by norm_num)
      (radius_check_pass _ (by norm_num))
  · rw [init_teeth]
    exact mkChecked_ok _ _ _ _ _ (by norm_num) (by norm_num)
      (radius_check_pass _ (by norm_num))

/-- Witness for C10 at the concrete construction with 70 teeth. -/
theorem C10_scale_factor_unvalidated_witness :
    spec70.scale_factor = 1.005 :=
  C10_scale_factor_unvalidated.2.1 none (some 70) 9 1.005 spec70 mk70

end TimingBelt
